import Mathlib

/-!
# Verification of the SpontaneousConnect call-scheduling core

Shallow embedding of the scheduling engine (`src/lib/scheduler.ts`, class
`CallScheduler`), the optimistic-concurrency write path
(`DatabaseService.updateScheduleHelper`) and the daily-reset step of
`useScheduler.loadInitialData`.

Conventions of the embedding:

* An instant is an `Int` counting quarter-minutes since a reference
  local Sunday 00:00.  Quarter-minutes make the gap relaxations
  `minGapMinutes * 0.75` and `* 0.5` exact for whole-minute gap
  configurations (the only ones the program uses: 45 min nominal), while
  the JS code works in milliseconds.  All times are in the single local
  timezone the JS runtime uses (`Date#toTimeString`,
  `Date#toLocaleDateString`).
* Time-of-day configuration strings `"HH:MM"` (`morning_start`,
  `evening_end`, block `start_time` / `end_time`) are modelled as their
  minute-of-day value; JS lexicographic comparison of well-formed
  zero-padded `"HH:MM"` strings coincides with numeric comparison of
  minute values, and `toTimeString().slice(0, 5)` truncates an instant to
  whole minutes, which `todMin` mirrors.
* `active_days` / `days_of_week` are comma-separated weekday-name strings
  in the source, queried with `String#includes`; for well-formed day lists
  this is exactly list membership, which is how they are modelled.
* `Math.random()` draws are injected explicitly (`RandomStream`), so every
  run of the engine is a deterministic function of its random choices.
* The `SchedulingResult.metadata` object is always present in the results
  the engine builds, so its `attempts` / `constraints` fields are inlined
  as direct fields.
-/

namespace Scheduler

/-- Quarter-minutes per day. -/
def qmPerDay : Int := 5760

/-- Time of day of an instant, in quarter-minutes (0 ≤ tod < 5760). -/
def tod (t : Int) : Int := t.emod qmPerDay

/-- Time of day truncated to whole minutes, as `toTimeString().slice(0,5)`
reads it (seconds dropped). -/
def todMin (t : Int) : Int := tod t / 4

/-- JS `Date#setHours(h, m, 0, 0)`: keep the calendar day, set the time of
day to `minutesOfDay`. -/
def setHM (t : Int) (minutesOfDay : Int) : Int :=
  t - tod t + 4 * minutesOfDay

/-- Weekdays, as produced by `toLocaleDateString('en', \x7b weekday: 'short' \x7d)`
and by JS `Date#getDay` (0 = Sunday). -/
inductive Weekday where
  | sun
  | mon
  | tue
  | wed
  | thu
  | fri
  | sat
deriving DecidableEq

/-- Weekday of a day index (0 = Sunday at the reference epoch). -/
def weekdayOfIdx (i : Int) : Weekday :=
  match (i.emod 7).toNat with
  | 0 => .sun
  | 1 => .mon
  | 2 => .tue
  | 3 => .wed
  | 4 => .thu
  | 5 => .fri
  | _ => .sat

/-- Local weekday of an instant. -/
def weekday (t : Int) : Weekday :=
  weekdayOfIdx (t.ediv qmPerDay)

/-- `BlockRepeatType` from `src/types`. -/
inductive BlockRepeatType where
  | daily
  | weekdays
  | weekends
  | custom
  | once
deriving DecidableEq

/-- `User` (the fields the scheduling core reads). -/
structure User where
  daily_call_limit : Nat
  active_days : List Weekday
  morning_start : Int
  evening_end : Int
deriving DecidableEq

/-- `BlockedTime` (the fields the scheduling core reads). -/
structure BlockedTime where
  block_name : String
  start_time : Int
  end_time : Int
  repeat_type : BlockRepeatType
  days_of_week : Option (List Weekday)
  is_active : Bool
  priority : Int
deriving DecidableEq

/-- `ScheduleHelper` row (the mutable per-user scheduling state). -/
structure ScheduleHelper where
  next_call_due : Option Int
  last_call_time : Option Int
  calls_today : Nat
  daily_reset_date : Int
  last_generated : Int
  lock_version : Nat
deriving DecidableEq

/-- `CallValidationResult` from `src/types`. -/
structure CallValidationResult where
  isValid : Bool
  reason : Option String
  suggestedTime : Option Int
deriving DecidableEq

/-- `SchedulingResult` from `src/types`, with the always-present metadata
fields inlined. -/
structure SchedulingResult where
  success : Bool
  nextCallTime : Option Int
  error : Option String
  attempts : Nat
  constraints : List String
deriving DecidableEq

/-- `APP_CONFIG.MIN_CALL_GAP_MINUTES`. -/
def APP_CONFIG_MIN_CALL_GAP_MINUTES : Int := 45

/-- `APP_CONFIG.MAX_CALL_GAP_MINUTES`. -/
def APP_CONFIG_MAX_CALL_GAP_MINUTES : Int := 360

/-- JS `x || d` for a possibly-absent number: `undefined` and `0` are
falsy and fall back to the default. -/
def orDefaultInt (x : Option Int) (d : Int) : Int :=
  match x with
  | some v => if v = 0 then d else v
  | none => d

/-- JS `x || d` on a possibly-absent natural number. -/
def orDefaultNat (x : Option Nat) (d : Nat) : Nat :=
  match x with
  | some v => if v = 0 then d else v
  | none => d

/-- The `CallScheduler` instance fields set by the constructor.  Gaps are
stored in quarter-minutes. -/
structure CallScheduler where
  user : User
  minGap : Int
  maxGap : Int
  maxAttempts : Nat
deriving DecidableEq

/-- The `CallScheduler` constructor:
`options.minGapMinutes || APP_CONFIG.MIN_CALL_GAP_MINUTES`, etc. -/
def mkScheduler (user : User) (minGapOpt maxGapOpt : Option Int)
    (maxAttemptsOpt : Option Nat) : CallScheduler :=
  { user := user
    minGap := orDefaultInt minGapOpt (4 * APP_CONFIG_MIN_CALL_GAP_MINUTES)
    maxGap := orDefaultInt maxGapOpt (4 * APP_CONFIG_MAX_CALL_GAP_MINUTES)
    maxAttempts := orDefaultNat maxAttemptsOpt 50 }

/-- `block_name.toLowerCase().replace(/\s+/g, '_')`: lower-case and
replace each maximal whitespace run by a single underscore. -/
def collapseWsAux : Bool → List Char → List Char
  | _, [] => []
  | prevWs, c :: rest =>
    if c.isWhitespace then
      if prevWs then collapseWsAux true rest
      else '_' :: collapseWsAux true rest
    else c :: collapseWsAux false rest

/-- Normalisation applied to a block name when building a `blocked_...`
reason string. -/
def normName (s : String) : String :=
  String.mk (collapseWsAux false (s.toList.map Char.toLower))

/-- `CallScheduler.adjustToTimeWindow`. -/
def adjustToTimeWindow (u : User) (t : Int) : Int :=
  if todMin t < u.morning_start then setHM t u.morning_start
  else if u.evening_end < todMin t then setHM (t + qmPerDay) u.morning_start
  else t

/-- The loop of `CallScheduler.getNextActiveDay`: up to 7 forward day
steps; `t0` is the original argument, used by the fallback
`new Date(time.getTime() + 24*60*60*1000)`. -/
def getNextActiveDayAux (u : User) (t0 : Int) : Nat → Int → Int
  | 0, _ => t0 + qmPerDay
  | n + 1, adjusted =>
    if decide (weekday (adjusted + qmPerDay) ∈ u.active_days) then
      setHM (adjusted + qmPerDay) u.morning_start
    else getNextActiveDayAux u t0 n (adjusted + qmPerDay)

/-- `CallScheduler.getNextActiveDay`. -/
def getNextActiveDay (u : User) (t : Int) : Int :=
  getNextActiveDayAux u t 7 t

/-- `CallScheduler.isTimeInBlockedPeriod`: repeat-kind day match (the
`once` arm falls through, blocking every day), then the inclusive
time-of-day range check. -/
def isTimeInBlockedPeriod (t : Int) (block : BlockedTime) : Bool :=
  let dayOk : Bool :=
    match block.repeat_type with
    | .daily => true
    | .weekdays => !(decide (weekday t = .sat) || decide (weekday t = .sun))
    | .weekends => decide (weekday t = .sat) || decide (weekday t = .sun)
    | .custom => decide (weekday t ∈ block.days_of_week.getD [])
    | .once => true
  dayOk && (decide (block.start_time ≤ todMin t) &&
            decide (todMin t ≤ block.end_time))

/-- `CallScheduler.findNextAvailableTimeAfterBlock`: block end on the same
day, plus a 15-minute buffer, re-clamped through the window. -/
def findNextAvailableTimeAfterBlock (u : User) (t : Int)
    (block : BlockedTime) : Int :=
  adjustToTimeWindow u (setHM t block.end_time + 60)

/-- The blocked-interval scan and past-time check at the tail of
`CallScheduler.validateCallTime` (the checks after the gap check). -/
def validateBlockedAndLater (s : CallScheduler) (now t : Int)
    (blockedTimes : List BlockedTime) : CallValidationResult :=
  match (blockedTimes.filter (fun b => b.is_active)).find?
      (fun b => isTimeInBlockedPeriod t b) with
  | some block =>
    { isValid := false
      reason := some ("blocked_" ++ normName block.block_name)
      suggestedTime := some (findNextAvailableTimeAfterBlock s.user t block) }
  | none =>
    if t ≤ now then
      { isValid := false
        reason := some "past_time"
        suggestedTime := some (now + s.minGap) }
    else
      { isValid := true, reason := none, suggestedTime := none }

/-- `CallScheduler.validateCallTime` (the body of its `try`): daily
window, active day, minimum gap, blocked intervals, past time, in source
order; the first failing check returns. -/
def validateCallTime (s : CallScheduler) (now t : Int)
    (blockedTimes : List BlockedTime) (scheduleHelper : ScheduleHelper) :
    CallValidationResult :=
  if todMin t < s.user.morning_start ∨ s.user.evening_end < todMin t then
    { isValid := false
      reason := some "outside_daily_window"
      suggestedTime := some (adjustToTimeWindow s.user t) }
  else if decide (weekday t ∈ s.user.active_days) then
    match scheduleHelper.last_call_time with
    | some lastCall =>
      if t - lastCall < s.minGap then
        { isValid := false
          reason := some "min_gap_violation"
          suggestedTime := some (lastCall + s.minGap) }
      else validateBlockedAndLater s now t blockedTimes
    | none => validateBlockedAndLater s now t blockedTimes
  else
    { isValid := false
      reason := some "inactive_day"
      suggestedTime := some (getNextActiveDay s.user t) }

/-- The `catch` wrapper of `CallScheduler.validateCallTime`: if the body
raises (modelled by the exogenous `exnRaised` oracle, since the Lean body
is total), the error is swallowed and a bare `validation_error` result is
returned. -/
def validateCallTimeCatch (exnRaised : Bool) (s : CallScheduler)
    (now t : Int) (blockedTimes : List BlockedTime)
    (scheduleHelper : ScheduleHelper) : CallValidationResult :=
  if exnRaised then
    { isValid := false, reason := some "validation_error", suggestedTime := none }
  else validateCallTime s now t blockedTimes scheduleHelper

/-- The constraint-accumulation step common to the strategy loops:
`if (validation.reason && !constraints.includes(validation.reason))
constraints.push(validation.reason)`. -/
def addConstraint (constraints : List String) (reason : Option String) :
    List String :=
  match reason with
  | some r => if decide (r ∈ constraints) then constraints else constraints ++ [r]
  | none => constraints

/-- The injected `Math.random()` draws of one engine run.  `basic` and
`relax` are the already-floored random minute offsets drawn by strategies
1 and 3, `slotMinute` the random minute of each preferred slot,
`slotJitter` the slot perturbation in quarter-minutes, `dayJitter` the
0-59 minute jitter of the next-day first call. -/
structure RandomStream where
  basic : Nat → Int
  slotMinute : Nat → Int
  slotJitter : Nat → Int
  relax : Nat → Int
  dayJitter : Int

/-- The `while (attempts < this.maxAttempts)` loop of
`CallScheduler.findTimeWithBasicRandomization`: validate a random
candidate, retry its suggested time once when present, otherwise
continue. -/
def basicRandAux (s : CallScheduler) (now : Int)
    (blockedTimes : List BlockedTime) (scheduleHelper : ScheduleHelper)
    (rng : Nat → Int) : Nat → Nat → List String → SchedulingResult
  | 0, attempts, constraints =>
    { success := false, nextCallTime := none
      error := some "Max attempts reached with basic randomization"
      attempts := attempts, constraints := constraints }
  | fuel + 1, attempts, constraints =>
    if (validateCallTime s now (now + 4 * rng attempts) blockedTimes
        scheduleHelper).isValid then
      { success := true, nextCallTime := some (now + 4 * rng attempts)
        error := none, attempts := attempts + 1, constraints := constraints }
    else
      match (validateCallTime s now (now + 4 * rng attempts) blockedTimes
          scheduleHelper).suggestedTime with
      | some suggested =>
        if (validateCallTime s now suggested blockedTimes scheduleHelper).isValid then
          { success := true, nextCallTime := some suggested, error := none
            attempts := attempts + 1
            constraints := addConstraint constraints (validateCallTime s now
              (now + 4 * rng attempts) blockedTimes scheduleHelper).reason }
        else
          basicRandAux s now blockedTimes scheduleHelper rng fuel (attempts + 1)
            (addConstraint constraints (validateCallTime s now
              (now + 4 * rng attempts) blockedTimes scheduleHelper).reason)
      | none =>
        basicRandAux s now blockedTimes scheduleHelper rng fuel (attempts + 1)
          (addConstraint constraints (validateCallTime s now
            (now + 4 * rng attempts) blockedTimes scheduleHelper).reason)

/-- `CallScheduler.findTimeWithBasicRandomization`. -/
def findTimeWithBasicRandomization (s : CallScheduler) (now : Int)
    (blockedTimes : List BlockedTime) (scheduleHelper : ScheduleHelper)
    (rng : Nat → Int) : SchedulingResult :=
  basicRandAux s now blockedTimes scheduleHelper rng s.maxAttempts 0 []

/-- A preferred time slot. -/
structure TimeSlot where
  hour : Int
  minute : Int
deriving DecidableEq

/-- `CallScheduler.getTimeSlotScore`. -/
def getTimeSlotScore (slot : TimeSlot) : Int :=
  (if 10 ≤ slot.hour ∧ slot.hour ≤ 16 then 3 else 0) +
  (if 19 ≤ slot.hour ∧ slot.hour ≤ 21 then 4 else 0) +
  (if slot.minute = 0 ∨ slot.minute = 30 then 1 else 0) -
  (if slot.hour < 9 ∨ 22 < slot.hour then 2 else 0)

/-- Stable insertion into a score-descending list (ties keep input order,
as JS stable `Array#sort` with comparator `bScore - aScore` does). -/
def insertByScoreDesc (x : TimeSlot) : List TimeSlot → List TimeSlot
  | [] => [x]
  | y :: ys =>
    if getTimeSlotScore x < getTimeSlotScore y then y :: insertByScoreDesc x ys
    else x :: y :: ys

/-- Stable sort by descending score. -/
def sortByScoreDesc : List TimeSlot → List TimeSlot
  | [] => []
  | x :: xs => insertByScoreDesc x (sortByScoreDesc xs)

/-- `CallScheduler.getPreferredTimeSlots`: the research-based optimal
hours intersected with the user's window hours, each given a random
minute, sorted by score. -/
def getPreferredTimeSlots (u : User) (minuteRng : Nat → Int) : List TimeSlot :=
  let startHour := u.morning_start / 60
  let endHour := u.evening_end / 60
  let optimalHours : List Int := [10, 11, 14, 16, 19, 20]
  let kept := optimalHours.filter
    (fun h => decide (startHour ≤ h) && decide (h ≤ endHour))
  sortByScoreDesc (kept.enum.map (fun p => { hour := p.2, minute := minuteRng p.1 }))

/-- `CallScheduler.getNextOccurrenceOfTimeSlot`: today at the slot time,
pushed to tomorrow when already past, then perturbed by the random
jitter. -/
def getNextOccurrenceOfTimeSlot (now : Int) (slot : TimeSlot)
    (jitterQm : Int) : Int :=
  let proposed := setHM now (slot.hour * 60 + slot.minute)
  let proposed2 := if proposed ≤ now then proposed + qmPerDay else proposed
  proposed2 + jitterQm

/-- The slot loop of `CallScheduler.findTimeWithPatternOptimization`:
no suggested-time retry here, a rejected slot only records its reason. -/
def patternAux (s : CallScheduler) (now : Int)
    (blockedTimes : List BlockedTime) (scheduleHelper : ScheduleHelper)
    (jitterRng : Nat → Int) :
    List TimeSlot → Nat → List String → SchedulingResult
  | [], attempts, constraints =>
    { success := false, nextCallTime := none
      error := some "No valid time slots found in preferred patterns"
      attempts := attempts, constraints := constraints }
  | slot :: rest, attempts, constraints =>
    if (validateCallTime s now (getNextOccurrenceOfTimeSlot now slot
        (jitterRng attempts)) blockedTimes scheduleHelper).isValid then
      { success := true
        nextCallTime := some (getNextOccurrenceOfTimeSlot now slot (jitterRng attempts))
        error := none, attempts := attempts + 1, constraints := constraints }
    else
      patternAux s now blockedTimes scheduleHelper jitterRng rest (attempts + 1)
        (addConstraint constraints (validateCallTime s now
          (getNextOccurrenceOfTimeSlot now slot (jitterRng attempts))
          blockedTimes scheduleHelper).reason)

/-- `CallScheduler.findTimeWithPatternOptimization`. -/
def findTimeWithPatternOptimization (s : CallScheduler) (now : Int)
    (blockedTimes : List BlockedTime) (scheduleHelper : ScheduleHelper)
    (minuteRng jitterRng : Nat → Int) : SchedulingResult :=
  patternAux s now blockedTimes scheduleHelper jitterRng
    (getPreferredTimeSlots s.user minuteRng) 0 []

/-- One entry of the `relaxationStrategies` array of
`CallScheduler.findTimeWithConstraintRelaxation`. -/
structure RelaxationStrategy where
  minGap : Option Int
  ignoreLowPriorityBlocks : Bool
  description : String
deriving DecidableEq

/-- The `relaxationStrategies` array: gap at 75% then 50% of nominal,
then a pass at the nominal gap dropping non-positive-priority blocks. -/
def relaxationStrategies (nominalGap : Int) : List RelaxationStrategy :=
  [ { minGap := some (nominalGap * 3 / 4), ignoreLowPriorityBlocks := false
      description := "reduced_min_gap" }
  , { minGap := some (nominalGap / 2), ignoreLowPriorityBlocks := false
      description := "minimal_gap" }
  , { minGap := none, ignoreLowPriorityBlocks := true
      description := "ignore_low_priority_blocks" } ]

/-- The inner `while` loop of one relaxation pass: a random candidate is
validated through the relaxed scheduler; there is no suggested-time
retry.  Returns the success result, or the carried totals when the pass
budget runs out. -/
def relaxPassAux (relaxedScheduler : CallScheduler) (now : Int)
    (blocks : List BlockedTime) (scheduleHelper : ScheduleHelper)
    (rng : Nat → Int) (description : String) :
    Nat → Nat → List String → Sum SchedulingResult (Nat × List String)
  | 0, totalAttempts, allConstraints => Sum.inr (totalAttempts, allConstraints)
  | fuel + 1, totalAttempts, allConstraints =>
    if (validateCallTime relaxedScheduler now (now + 4 * rng totalAttempts)
        blocks scheduleHelper).isValid then
      Sum.inl
        { success := true, nextCallTime := some (now + 4 * rng totalAttempts)
          error := none, attempts := totalAttempts + 1
          constraints := allConstraints ++ [description] }
    else
      relaxPassAux relaxedScheduler now blocks scheduleHelper rng description
        fuel (totalAttempts + 1)
        (addConstraint allConstraints (validateCallTime relaxedScheduler now
          (now + 4 * rng totalAttempts) blocks scheduleHelper).reason)

/-- The outer `for` loop of
`CallScheduler.findTimeWithConstraintRelaxation`: each pass filters the
blocks when asked, resolves its gap with JS falsy fallback
(`strategy.minGap || this.minGapMinutes`), builds the relaxed scheduler
and runs its bounded search. -/
def findTimeWithConstraintRelaxationAux (s : CallScheduler) (now : Int)
    (blockedTimes : List BlockedTime) (scheduleHelper : ScheduleHelper)
    (rng : Nat → Int) (budget : Nat) :
    List RelaxationStrategy → Nat → List String → SchedulingResult
  | [], totalAttempts, allConstraints =>
    { success := false, nextCallTime := none
      error := some "All constraint relaxation strategies failed"
      attempts := totalAttempts, constraints := allConstraints }
  | strategy :: rest, totalAttempts, allConstraints =>
    match relaxPassAux
        (mkScheduler s.user (some (orDefaultInt strategy.minGap s.minGap)) none none)
        now
        (if strategy.ignoreLowPriorityBlocks then
          blockedTimes.filter (fun b => decide (0 < b.priority))
        else blockedTimes)
        scheduleHelper rng strategy.description budget totalAttempts
        allConstraints with
    | Sum.inl res => res
    | Sum.inr carried =>
      findTimeWithConstraintRelaxationAux s now blockedTimes scheduleHelper rng
        budget rest carried.1 carried.2

/-- `CallScheduler.findTimeWithConstraintRelaxation`: the attempt budget
is `Math.floor(maxAttempts / relaxationStrategies.length)` per pass. -/
def findTimeWithConstraintRelaxation (s : CallScheduler) (now : Int)
    (blockedTimes : List BlockedTime) (scheduleHelper : ScheduleHelper)
    (rng : Nat → Int) : SchedulingResult :=
  findTimeWithConstraintRelaxationAux s now blockedTimes scheduleHelper rng
    (s.maxAttempts / (relaxationStrategies s.minGap).length)
    (relaxationStrategies s.minGap) 0 []

/-- `CallScheduler.getNextDayFirstCall`: tomorrow at `morning_start`,
plus 0-59 random minutes. -/
def getNextDayFirstCall (u : User) (now : Int) (jitterMinutes : Int) :
    Int :=
  setHM (now + qmPerDay) u.morning_start + 4 * jitterMinutes

/-- `CallScheduler.generateNextCallTime`: daily-limit short-circuit, then
the three strategies in order, aggregating attempt counts, and on total
failure the union of the recorded constraint reasons. -/
def generateNextCallTime (s : CallScheduler) (now : Int)
    (blockedTimes : List BlockedTime) (scheduleHelper : ScheduleHelper)
    (r : RandomStream) : SchedulingResult :=
  if s.user.daily_call_limit ≤ scheduleHelper.calls_today then
    { success := true
      nextCallTime := some (getNextDayFirstCall s.user now r.dayJitter)
      error := none, attempts := 1, constraints := ["daily_limit_reached"] }
  else if (findTimeWithBasicRandomization s now blockedTimes scheduleHelper
      r.basic).success &&
      (findTimeWithBasicRandomization s now blockedTimes scheduleHelper
        r.basic).nextCallTime.isSome then
    findTimeWithBasicRandomization s now blockedTimes scheduleHelper r.basic
  else if (findTimeWithPatternOptimization s now blockedTimes scheduleHelper
      r.slotMinute r.slotJitter).success &&
      (findTimeWithPatternOptimization s now blockedTimes scheduleHelper
        r.slotMinute r.slotJitter).nextCallTime.isSome then
    { findTimeWithPatternOptimization s now blockedTimes scheduleHelper
        r.slotMinute r.slotJitter with
      attempts :=
        (findTimeWithBasicRandomization s now blockedTimes scheduleHelper
          r.basic).attempts +
        (findTimeWithPatternOptimization s now blockedTimes scheduleHelper
          r.slotMinute r.slotJitter).attempts }
  else if (findTimeWithConstraintRelaxation s now blockedTimes scheduleHelper
      r.relax).success &&
      (findTimeWithConstraintRelaxation s now blockedTimes scheduleHelper
        r.relax).nextCallTime.isSome then
    { findTimeWithConstraintRelaxation s now blockedTimes scheduleHelper
        r.relax with
      attempts :=
        (findTimeWithBasicRandomization s now blockedTimes scheduleHelper
          r.basic).attempts +
        (findTimeWithPatternOptimization s now blockedTimes scheduleHelper
          r.slotMinute r.slotJitter).attempts +
        (findTimeWithConstraintRelaxation s now blockedTimes scheduleHelper
          r.relax).attempts }
  else
    { success := false, nextCallTime := none
      error := some "Unable to find valid call time within constraints"
      attempts :=
        (findTimeWithBasicRandomization s now blockedTimes scheduleHelper
          r.basic).attempts +
        (findTimeWithPatternOptimization s now blockedTimes scheduleHelper
          r.slotMinute r.slotJitter).attempts +
        (findTimeWithConstraintRelaxation s now blockedTimes scheduleHelper
          r.relax).attempts
      constraints :=
        (findTimeWithBasicRandomization s now blockedTimes scheduleHelper
          r.basic).constraints ++
        (findTimeWithPatternOptimization s now blockedTimes scheduleHelper
          r.slotMinute r.slotJitter).constraints ++
        (findTimeWithConstraintRelaxation s now blockedTimes scheduleHelper
          r.relax).constraints }

/-- A `Partial<ScheduleHelper>` update object: `none` means the field is
absent.  `next_call_due` distinguishes setting to `null` (`some none`)
from absence. -/
structure SchedulePatch where
  next_call_due : Option (Option Int) := none
  last_call_time : Option Int := none
  calls_today : Option Nat := none
  daily_reset_date : Option Int := none
  last_generated : Option Int := none
deriving DecidableEq

/-- Spreading an update object over the stored row. -/
def applyPatch (row : ScheduleHelper) (p : SchedulePatch) : ScheduleHelper :=
  { row with
    next_call_due := p.next_call_due.getD row.next_call_due
    last_call_time :=
      match p.last_call_time with
      | some v => some v
      | none => row.last_call_time
    calls_today := p.calls_today.getD row.calls_today
    daily_reset_date := p.daily_reset_date.getD row.daily_reset_date
    last_generated := p.last_generated.getD row.last_generated }

/-- Outcome of `DatabaseService.updateScheduleHelper`: a returned row, or
the thrown `ValidationError` for a lock-version conflict (PGRST116 with an
expected lock version). -/
inductive UpdateOutcome where
  | ok (row : ScheduleHelper)
  | concurrentModification
deriving DecidableEq

/-- `DatabaseService.updateScheduleHelper` acting on the stored row.  The
written `lock_version` is `expectedLockVersion ? expectedLockVersion + 1 :
undefined` (JS falsy check: an `undefined` or `0` expectation leaves the
stored version unchanged), and the `.eq('lock_version', v)` precondition
is attached only when an expectation was passed.  Returns the outcome and
the row as stored afterwards. -/
def updateScheduleHelper :
    ScheduleHelper → SchedulePatch → Option Nat → UpdateOutcome × ScheduleHelper
  | stored, updates, some v =>
    if stored.lock_version = v then
      (UpdateOutcome.ok { applyPatch stored updates with
          lock_version := if v = 0 then stored.lock_version else v + 1 },
       { applyPatch stored updates with
          lock_version := if v = 0 then stored.lock_version else v + 1 })
    else (UpdateOutcome.concurrentModification, stored)
  | stored, updates, none =>
    (UpdateOutcome.ok (applyPatch stored updates), applyPatch stored updates)

/-- The daily-reset step of `useScheduler.loadInitialData`: when the
stored `daily_reset_date` is not today, write `calls_today = 0` and
today's date, conditioned on the lock version just read. -/
def loadInitialDataReset (today : Int) (stored : ScheduleHelper) :
    UpdateOutcome × ScheduleHelper :=
  if stored.daily_reset_date ≠ today then
    updateScheduleHelper stored
      { calls_today := some 0, daily_reset_date := some today }
      (some stored.lock_version)
  else (UpdateOutcome.ok stored, stored)

/-- The day-match-and-range condition in the words of the specification
(spec §4.2): the repeat-kind day rule passes (daily: always; weekdays:
Mon-Fri; weekends: Sat-Sun; custom: weekday in the configured day set;
once: every day) and the local time of day lies in the inclusive range
`[startTimeOfDay, endTimeOfDay]`.  Stated separately from
`isTimeInBlockedPeriod` so the two can be compared. -/
def blockAppliesSpec (t : Int) (block : BlockedTime) : Prop :=
  (match block.repeat_type with
   | .daily => True
   | .weekdays => weekday t ≠ .sat ∧ weekday t ≠ .sun
   | .weekends => weekday t = .sat ∨ weekday t = .sun
   | .custom => weekday t ∈ block.days_of_week.getD []
   | .once => True) ∧
  block.start_time ≤ todMin t ∧ todMin t ≤ block.end_time

/-- The gap check passes for `t` against the recorded last call. -/
def gapOk (s : CallScheduler) (scheduleHelper : ScheduleHelper)
    (t : Int) : Prop :=
  ∀ lastCall, scheduleHelper.last_call_time = some lastCall →
    s.minGap ≤ t - lastCall

/-- A valid verdict of `validateCallTime` implies the candidate lies in
the closed daily window and on an active weekday. -/
theorem validateCallTime_valid_window_day (s : CallScheduler) (now t : Int)
    (bl : List BlockedTime) (sh : ScheduleHelper)
    (hv : (validateCallTime s now t bl sh).isValid = true) :
    s.user.morning_start ≤ todMin t ∧ todMin t ≤ s.user.evening_end ∧
      weekday t ∈ s.user.active_days := by
  unfold validateCallTime at hv
  split at hv
  · simp at hv
  · rename_i h1
    push_neg at h1
    split at hv
    · rename_i h2
      exact ⟨h1.1, h1.2, of_decide_eq_true h2⟩
    · simp at hv

/-- Every invalid verdict of `validateCallTime` carries a reason. -/
theorem validateCallTime_valid_or_reason (s : CallScheduler) (now t : Int)
    (bl : List BlockedTime) (sh : ScheduleHelper) :
    (validateCallTime s now t bl sh).isValid = true ∨
      (validateCallTime s now t bl sh).reason.isSome = true := by
  unfold validateCallTime validateBlockedAndLater
  repeat' split
  all_goals simp

/-- A candidate outside the daily window is rejected with reason
`outside_daily_window` and the window-adjusted suggestion, whatever the
later checks would have said. -/
theorem validateCallTime_window_fail (s : CallScheduler) (now t : Int)
    (bl : List BlockedTime) (sh : ScheduleHelper)
    (hw : todMin t < s.user.morning_start ∨ s.user.evening_end < todMin t) :
    validateCallTime s now t bl sh =
      { isValid := false, reason := some "outside_daily_window"
        suggestedTime := some (adjustToTimeWindow s.user t) } := by
  unfold validateCallTime
  rw [if_pos hw]

/-- A candidate inside the window but on an inactive day is rejected with
reason `inactive_day` and the next-active-day suggestion. -/
theorem validateCallTime_inactive (s : CallScheduler) (now t : Int)
    (bl : List BlockedTime) (sh : ScheduleHelper)
    (hw1 : s.user.morning_start ≤ todMin t)
    (hw2 : todMin t ≤ s.user.evening_end)
    (hd : weekday t ∉ s.user.active_days) :
    validateCallTime s now t bl sh =
      { isValid := false, reason := some "inactive_day"
        suggestedTime := some (getNextActiveDay s.user t) } := by
  unfold validateCallTime
  have hwcond : ¬ (todMin t < s.user.morning_start ∨
      s.user.evening_end < todMin t) := by omega
  rw [if_neg hwcond]
  rw [if_neg (fun hc => hd (of_decide_eq_true hc))]

/-- A candidate passing window and day checks but violating the minimum
gap is rejected with reason `min_gap_violation` and the
last-call-plus-gap suggestion. -/
theorem validateCallTime_gap (s : CallScheduler) (now t : Int)
    (bl : List BlockedTime) (sh : ScheduleHelper) (l : Int)
    (hw1 : s.user.morning_start ≤ todMin t)
    (hw2 : todMin t ≤ s.user.evening_end)
    (hd : weekday t ∈ s.user.active_days)
    (hl : sh.last_call_time = some l) (hgap : t - l < s.minGap) :
    validateCallTime s now t bl sh =
      { isValid := false, reason := some "min_gap_violation"
        suggestedTime := some (l + s.minGap) } := by
  unfold validateCallTime
  have hwcond : ¬ (todMin t < s.user.morning_start ∨
      s.user.evening_end < todMin t) := by omega
  rw [if_neg hwcond, if_pos (decide_eq_true hd), hl]
  show (if t - l < s.minGap then
      ({ isValid := false, reason := some "min_gap_violation"
         suggestedTime := some (l + s.minGap) } : CallValidationResult)
    else validateBlockedAndLater s now t bl) = _
  rw [if_pos hgap]

/-- A candidate passing window, day and gap checks that hits a blocked
interval is rejected with the first matching active interval in
input-list order: its normalised name in the reason and its escape time
as the suggestion. -/
theorem validateCallTime_first_blocked (s : CallScheduler) (now t : Int)
    (bl : List BlockedTime) (sh : ScheduleHelper) (b : BlockedTime)
    (hw1 : s.user.morning_start ≤ todMin t)
    (hw2 : todMin t ≤ s.user.evening_end)
    (hd : weekday t ∈ s.user.active_days)
    (hg : gapOk s sh t)
    (hf : (bl.filter (fun b => b.is_active)).find?
      (fun b => isTimeInBlockedPeriod t b) = some b) :
    validateCallTime s now t bl sh =
      { isValid := false
        reason := some ("blocked_" ++ normName b.block_name)
        suggestedTime := some (findNextAvailableTimeAfterBlock s.user t b) } := by
  unfold validateCallTime
  have hwcond : ¬ (todMin t < s.user.morning_start ∨
      s.user.evening_end < todMin t) := by omega
  rw [if_neg hwcond]
  rw [if_pos (decide_eq_true hd)]
  cases hl : sh.last_call_time with
  | none =>
    unfold validateBlockedAndLater
    rw [hf]
  | some l =>
    have hgl := hg l hl
    have hcond : ¬ t - l < s.minGap := by omega
    show (if t - l < s.minGap then
        ({ isValid := false, reason := some "min_gap_violation"
           suggestedTime := some (l + s.minGap) } : CallValidationResult)
      else validateBlockedAndLater s now t bl) = _
    rw [if_neg hcond]
    unfold validateBlockedAndLater
    rw [hf]

/-- A candidate passing every other check but not strictly in the future
is rejected with reason `past_time` and the now-plus-gap suggestion. -/
theorem validateCallTime_pasttime (s : CallScheduler) (now t : Int)
    (bl : List BlockedTime) (sh : ScheduleHelper)
    (hw1 : s.user.morning_start ≤ todMin t)
    (hw2 : todMin t ≤ s.user.evening_end)
    (hd : weekday t ∈ s.user.active_days)
    (hg : gapOk s sh t)
    (hf : (bl.filter (fun b => b.is_active)).find?
      (fun b => isTimeInBlockedPeriod t b) = none)
    (hp : t ≤ now) :
    validateCallTime s now t bl sh =
      { isValid := false, reason := some "past_time"
        suggestedTime := some (now + s.minGap) } := by
  unfold validateCallTime
  have hwcond : ¬ (todMin t < s.user.morning_start ∨
      s.user.evening_end < todMin t) := by omega
  rw [if_neg hwcond]
  rw [if_pos (decide_eq_true hd)]
  cases hl : sh.last_call_time with
  | none =>
    unfold validateBlockedAndLater
    rw [hf, if_pos hp]
  | some l =>
    have hgl := hg l hl
    have hcond : ¬ t - l < s.minGap := by omega
    show (if t - l < s.minGap then
        ({ isValid := false, reason := some "min_gap_violation"
           suggestedTime := some (l + s.minGap) } : CallValidationResult)
      else validateBlockedAndLater s now t bl) = _
    rw [if_neg hcond]
    unfold validateBlockedAndLater
    rw [hf, if_pos hp]

/-- A success of the basic-randomization loop returns an instant that
passed `validateCallTime`. -/
theorem basicRandAux_success (s : CallScheduler) (now : Int)
    (bl : List BlockedTime) (sh : ScheduleHelper) (rng : Nat → Int) :
    ∀ fuel attempts cons,
      (basicRandAux s now bl sh rng fuel attempts cons).success = true →
      ∃ t, (basicRandAux s now bl sh rng fuel attempts cons).nextCallTime = some t ∧
        (validateCallTime s now t bl sh).isValid = true := by
  intro fuel
  induction fuel with
  | zero => intro attempts cons h; simp [basicRandAux] at h
  | succ n ih =>
    intro attempts cons h
    unfold basicRandAux at h ⊢
    split at h
    · rename_i hval
      rw [if_pos hval]
      exact ⟨_, rfl, hval⟩
    · rename_i hval
      rw [if_neg hval]
      split at h
      · rename_i sug hsug
        split at h
        · rename_i hsv
          rw [if_pos hsv]
          exact ⟨sug, rfl, hsv⟩
        · rename_i hsv
          rw [if_neg hsv]
          exact ih _ _ h
      · rename_i hsug
        exact ih _ _ h

/-- A success of the preferred-slot loop returns an instant that passed
`validateCallTime`. -/
theorem patternAux_success (s : CallScheduler) (now : Int)
    (bl : List BlockedTime) (sh : ScheduleHelper) (jr : Nat → Int) :
    ∀ slots attempts cons,
      (patternAux s now bl sh jr slots attempts cons).success = true →
      ∃ t, (patternAux s now bl sh jr slots attempts cons).nextCallTime = some t ∧
        (validateCallTime s now t bl sh).isValid = true := by
  intro slots
  induction slots with
  | nil => intro attempts cons h; simp [patternAux] at h
  | cons slot rest ih =>
    intro attempts cons h
    unfold patternAux at h ⊢
    split at h
    · rename_i hval
      rw [if_pos hval]
      exact ⟨_, rfl, hval⟩
    · rename_i hval
      rw [if_neg hval]
      exact ih _ _ h

/-- A success escaping one relaxation pass: the instant passed validation
through the relaxed scheduler and the pass description is the last
constraint tag recorded. -/
theorem relaxPassAux_inl (rs : CallScheduler) (now : Int)
    (bl : List BlockedTime) (sh : ScheduleHelper) (rng : Nat → Int)
    (d : String) :
    ∀ fuel tot cons res,
      relaxPassAux rs now bl sh rng d fuel tot cons = Sum.inl res →
      res.success = true ∧
      (∃ t, res.nextCallTime = some t ∧
        (validateCallTime rs now t bl sh).isValid = true) ∧
      res.constraints.getLast? = some d := by
  intro fuel
  induction fuel with
  | zero => intro tot cons res h; simp [relaxPassAux] at h
  | succ n ih =>
    intro tot cons res h
    unfold relaxPassAux at h
    split at h
    · rename_i hval
      cases h
      refine ⟨rfl, ⟨_, rfl, hval⟩, ?_⟩
      simp
    · rename_i hval
      exact ih _ _ res h

/-- A success of the relaxation strategy passed validation through a
scheduler with the same user profile. -/
theorem relaxAux_success (s : CallScheduler) (now : Int)
    (bl : List BlockedTime) (sh : ScheduleHelper) (rng : Nat → Int)
    (budget : Nat) :
    ∀ strats tot cons,
      (findTimeWithConstraintRelaxationAux s now bl sh rng budget strats tot
        cons).success = true →
      ∃ t, (findTimeWithConstraintRelaxationAux s now bl sh rng budget strats
          tot cons).nextCallTime = some t ∧
        s.user.morning_start ≤ todMin t ∧ todMin t ≤ s.user.evening_end ∧
        weekday t ∈ s.user.active_days := by
  intro strats
  induction strats with
  | nil => intro tot cons h; simp [findTimeWithConstraintRelaxationAux] at h
  | cons strat rest ih =>
    intro tot cons h
    unfold findTimeWithConstraintRelaxationAux at h ⊢
    split at h
    · rename_i res hres
      obtain ⟨-, ⟨t, ht, hv⟩, -⟩ := relaxPassAux_inl _ _ _ _ _ _ _ _ _ _ hres
      have hw := validateCallTime_valid_window_day _ _ _ _ _ hv
      exact ⟨t, ht, hw.1, hw.2.1, hw.2.2⟩
    · rename_i carried hres
      exact ih _ _ h

/-- A success of `generateNextCallTime` below the daily quota lies in the
closed daily window on an active weekday. -/
theorem generate_window_day (s : CallScheduler) (now : Int)
    (bl : List BlockedTime) (sh : ScheduleHelper) (r : RandomStream) (t : Int)
    (hq : sh.calls_today < s.user.daily_call_limit)
    (h : (generateNextCallTime s now bl sh r).nextCallTime = some t) :
    s.user.morning_start ≤ todMin t ∧ todMin t ≤ s.user.evening_end ∧
      weekday t ∈ s.user.active_days := by
  unfold generateNextCallTime at h
  rw [if_neg (by omega)] at h
  split at h
  · rename_i hc
    obtain ⟨hs, -⟩ := Bool.and_eq_true _ _ |>.mp hc
    obtain ⟨t', ht', hv⟩ := basicRandAux_success s now bl sh r.basic
      s.maxAttempts 0 [] hs
    have h2 : (basicRandAux s now bl sh r.basic s.maxAttempts 0 []).nextCallTime
      = some t := h
    rw [ht'] at h2
    cases h2
    exact validateCallTime_valid_window_day _ _ _ _ _ hv
  · split at h
    · rename_i hc
      obtain ⟨hs, -⟩ := Bool.and_eq_true _ _ |>.mp hc
      obtain ⟨t', ht', hv⟩ := patternAux_success s now bl sh r.slotJitter
        (getPreferredTimeSlots s.user r.slotMinute) 0 [] hs
      have h2 : (patternAux s now bl sh r.slotJitter
        (getPreferredTimeSlots s.user r.slotMinute) 0 []).nextCallTime
        = some t := h
      rw [ht'] at h2
      cases h2
      exact validateCallTime_valid_window_day _ _ _ _ _ hv
    · split at h
      · rename_i hc
        obtain ⟨hs, -⟩ := Bool.and_eq_true _ _ |>.mp hc
        obtain ⟨t', ht', hw⟩ := relaxAux_success s now bl sh r.relax
          (s.maxAttempts / (relaxationStrategies s.minGap).length)
          (relaxationStrategies s.minGap) 0 [] hs
        have h2 : (findTimeWithConstraintRelaxationAux s now bl sh r.relax
          (s.maxAttempts / (relaxationStrategies s.minGap).length)
          (relaxationStrategies s.minGap) 0 []).nextCallTime = some t := h
        rw [ht'] at h2
        cases h2
        exact hw
      · simp at h

/-- Concrete profile: limit 3, all days active, window 10:00-20:00. -/
def userA : User :=
  { daily_call_limit := 3
    active_days := [.sun, .mon, .tue, .wed, .thu, .fri, .sat]
    morning_start := 600, evening_end := 1200 }

/-- Scheduler over `userA` with default options (gap 45-360 min, 50
attempts). -/
def schedA : CallScheduler := mkScheduler userA none none none

/-- Fresh schedule state: no previous call, no calls today. -/
def helperA : ScheduleHelper :=
  { next_call_due := none, last_call_time := none, calls_today := 0
    daily_reset_date := 0, last_generated := 0, lock_version := 1 }

/-- Deterministic draws: 60-minute offsets everywhere. -/
def randW : RandomStream :=
  { basic := fun _ => 60, slotMinute := fun _ => 0, slotJitter := fun _ => 0
    relax := fun _ => 60, dayJitter := 0 }

/-- C1: the claim asserts the half-open window `[morningStart,
eveningEnd)`, but `validateCallTime` accepts an instant whose local
time-of-day equals `eveningEnd` exactly (the source rejects only
`timeStr > evening_end`): Tuesday 20:00 is accepted for the 10:00-20:00
window, yet `20:00` is not in `[10:00, 20:00)`. -/
theorem C1_counterexample :
    (validateCallTime schedA 13920 16320 [] helperA).isValid = true ∧
    todMin 16320 = schedA.user.evening_end ∧
    ¬ todMin 16320 < schedA.user.evening_end := by
  decide

/-- C1 (amended): every instant `validateCallTime` reports valid, and
every instant a sub-quota `generateNextCallTime` run returns, has its
local time-of-day in the closed window `[morningStart, eveningEnd]` and
its local weekday in the profile's active-day set. -/
theorem C1_amended (s : CallScheduler) (now t : Int)
    (bl : List BlockedTime) (sh : ScheduleHelper) (r : RandomStream) :
    ((validateCallTime s now t bl sh).isValid = true →
      s.user.morning_start ≤ todMin t ∧ todMin t ≤ s.user.evening_end ∧
        weekday t ∈ s.user.active_days) ∧
    (sh.calls_today < s.user.daily_call_limit →
      (generateNextCallTime s now bl sh r).nextCallTime = some t →
      s.user.morning_start ≤ todMin t ∧ todMin t ≤ s.user.evening_end ∧
        weekday t ∈ s.user.active_days) :=
  ⟨fun hv => validateCallTime_valid_window_day s now t bl sh hv,
   fun hq h => generate_window_day s now bl sh r t hq h⟩

/-- C1 witness: a concrete sub-quota run returns Tuesday 11:00, which the
theorem places in the window on an active day. -/
theorem C1_witness :
    schedA.user.morning_start ≤ todMin 14160 ∧
    todMin 14160 ≤ schedA.user.evening_end ∧
    weekday 14160 ∈ schedA.user.active_days :=
  (C1_amended schedA 13920 14160 [] helperA randW).2 (by decide) (by decide)

/-- C5: an active interval blocks a candidate exactly when its
repeat-kind day rule passes and the candidate's local time-of-day lies in
the inclusive range `[startTimeOfDay, endTimeOfDay]` (so the instant
exactly at `endTimeOfDay` is blocked). -/
theorem C5_theorem (t : Int) (b : BlockedTime) :
    isTimeInBlockedPeriod t b = true ↔ blockAppliesSpec t b := by
  rcases b with ⟨name, st, et, rt, dow, act, pri⟩
  cases rt <;>
    simp [isTimeInBlockedPeriod, blockAppliesSpec, Bool.and_eq_true,
      Bool.or_eq_true, Bool.not_eq_true', decide_eq_true_iff, and_assoc,
      not_or]

/-- Blocked interval fixture: priority 0, daily 11:00-12:00. -/
def bAlpha : BlockedTime :=
  { block_name := "alpha", start_time := 660, end_time := 720
    repeat_type := .daily, days_of_week := none, is_active := true
    priority := 0 }

/-- Blocked interval fixture: priority 5, daily 11:00-12:00. -/
def bBeta : BlockedTime :=
  { block_name := "beta", start_time := 660, end_time := 720
    repeat_type := .daily, days_of_week := none, is_active := true
    priority := 5 }

/-- C6: the claim asserts the highest-priority matching interval is
reported, but `validateCallTime` reports the first matching interval in
list order: at Tuesday 11:30 both `alpha` (priority 0) and `beta`
(priority 5) match, and the result names `alpha`. -/
theorem C6_counterexample :
    (validateCallTime schedA 13920 14280 [bAlpha, bBeta] helperA).reason =
      some "blocked_alpha" ∧
    (validateCallTime schedA 13920 14280 [bAlpha, bBeta] helperA).suggestedTime =
      some (findNextAvailableTimeAfterBlock userA 14280 bAlpha) ∧
    isTimeInBlockedPeriod 14280 bBeta = true ∧
    bAlpha.priority < bBeta.priority := by
  decide

/-- C6 (amended): when a candidate passes the window, active-day and gap
checks, the reported blocking interval is the first active matching
interval in input-list order — its name in the reason and its escape time
as the suggestion — regardless of the priorities of other matches. -/
theorem C6_amended (s : CallScheduler) (now t : Int)
    (bl : List BlockedTime) (sh : ScheduleHelper) (b : BlockedTime)
    (hw1 : s.user.morning_start ≤ todMin t)
    (hw2 : todMin t ≤ s.user.evening_end)
    (hd : weekday t ∈ s.user.active_days)
    (hg : gapOk s sh t)
    (hf : (bl.filter (fun b => b.is_active)).find?
      (fun b => isTimeInBlockedPeriod t b) = some b) :
    validateCallTime s now t bl sh =
      { isValid := false
        reason := some ("blocked_" ++ normName b.block_name)
        suggestedTime := some (findNextAvailableTimeAfterBlock s.user t b) } :=
  validateCallTime_first_blocked s now t bl sh b hw1 hw2 hd hg hf

/-- C6 amended witness: at Tuesday 11:30 with both fixtures active, the
first interval `alpha` is the reported one. -/
theorem C6_amended_witness :
    validateCallTime schedA 13920 14280 [bAlpha, bBeta] helperA =
      { isValid := false
        reason := some ("blocked_" ++ normName bAlpha.block_name)
        suggestedTime :=
          some (findNextAvailableTimeAfterBlock schedA.user 14280 bAlpha) } :=
  C6_amended schedA 13920 14280 [bAlpha, bBeta] helperA bAlpha (by decide)
    (by decide) (by decide) (fun l hl => Option.noConfusion hl) (by decide)

/-- C10: `validateCallTime` is total — it always returns a result whose
invalid verdicts carry a reason — and a raised internal exception
(exogenous oracle `true`) is caught and converted into the bare
`validation_error` result with no suggested time. -/
theorem C10_theorem (exn : Bool) (s : CallScheduler) (now t : Int)
    (bl : List BlockedTime) (sh : ScheduleHelper) :
    validateCallTimeCatch true s now t bl sh =
      { isValid := false, reason := some "validation_error"
        suggestedTime := none } ∧
    ((validateCallTimeCatch exn s now t bl sh).isValid = true ∨
      (validateCallTimeCatch exn s now t bl sh).reason.isSome = true) := by
  refine ⟨rfl, ?_⟩
  cases exn
  · simpa [validateCallTimeCatch] using validateCallTime_valid_or_reason s now t bl sh
  · simp [validateCallTimeCatch]

/-- C2: with the token read at the start of the operation passed as the
precondition — as every caller in the repository does, and tokens start
at 1 (`createScheduleHelper`) — a write succeeds exactly when the stored
token still matches; a successful write bumps the token by exactly one,
and a mismatch leaves the stored state unchanged and surfaces the
concurrent-modification error instead of writing. -/
theorem C2_theorem (stored : ScheduleHelper) (p : SchedulePatch) (v : Nat)
    (hv : 1 ≤ v) :
    (stored.lock_version = v →
      ∃ nr, updateScheduleHelper stored p (some v) = (UpdateOutcome.ok nr, nr) ∧
        nr.lock_version = stored.lock_version + 1) ∧
    (stored.lock_version ≠ v →
      updateScheduleHelper stored p (some v) =
        (UpdateOutcome.concurrentModification, stored)) := by
  constructor
  · intro he
    have hv0 : v ≠ 0 := by omega
    simp only [updateScheduleHelper]
    rw [if_pos he]
    exact ⟨_, rfl, by simp [hv0, he]⟩
  · intro hne
    simp only [updateScheduleHelper]
    rw [if_neg hne]

/-- Stored row fixture with token 7. -/
def storedW : ScheduleHelper :=
  { next_call_due := none, last_call_time := none, calls_today := 2
    daily_reset_date := 5, last_generated := 0, lock_version := 7 }

/-- Update fixture: set a next call due and a generation time. -/
def patchW : SchedulePatch :=
  { next_call_due := some (some 100), last_generated := some 50 }

/-- C2 witness: at token 7 the matching write succeeds and bumps to 8;
expecting 9 yields the concurrent-modification outcome with the row
untouched. -/
theorem C2_witness :
    (∃ nr, updateScheduleHelper storedW patchW (some 7) =
        (UpdateOutcome.ok nr, nr) ∧
      nr.lock_version = storedW.lock_version + 1) ∧
    updateScheduleHelper storedW patchW (some 9) =
      (UpdateOutcome.concurrentModification, storedW) :=
  ⟨(C2_theorem storedW patchW 7 (by decide)).1 (by decide),
   (C2_theorem storedW patchW 9 (by decide)).2 (by decide)⟩

/-- Schedule state at the daily limit (3 calls, limit 3), stale reset
date 0. -/
def helperC : ScheduleHelper :=
  { next_call_due := none, last_call_time := none, calls_today := 3
    daily_reset_date := 0, last_generated := 0, lock_version := 1 }

/-- C3: at or over quota, `generateNextCallTime` short-circuits to a
success at the next day's `morningStart` plus the 0-59 minute jitter,
tagged `daily_limit_reached`, running no strategy and independent of the
blocked-interval set. -/
theorem C3_theorem (s : CallScheduler) (now : Int) (bl bl2 : List BlockedTime)
    (sh : ScheduleHelper) (r : RandomStream)
    (hq : s.user.daily_call_limit ≤ sh.calls_today)
    (hj0 : 0 ≤ r.dayJitter) (hj1 : r.dayJitter < 60) :
    generateNextCallTime s now bl sh r =
      { success := true
        nextCallTime := some (getNextDayFirstCall s.user now r.dayJitter)
        error := none, attempts := 1
        constraints := ["daily_limit_reached"] } ∧
    generateNextCallTime s now bl sh r = generateNextCallTime s now bl2 sh r ∧
    getNextDayFirstCall s.user now r.dayJitter =
      setHM (now + qmPerDay) s.user.morning_start + 4 * r.dayJitter ∧
    setHM (now + qmPerDay) s.user.morning_start ≤
      getNextDayFirstCall s.user now r.dayJitter ∧
    getNextDayFirstCall s.user now r.dayJitter <
      setHM (now + qmPerDay) s.user.morning_start + 240 := by
  refine ⟨?_, ?_, rfl, ?_, ?_⟩
  · unfold generateNextCallTime
    rw [if_pos hq]
  · unfold generateNextCallTime
    rw [if_pos hq, if_pos hq]
  · unfold getNextDayFirstCall
    omega
  · unfold getNextDayFirstCall
    omega

/-- C3 witness: a concrete at-quota state short-circuits identically with
and without a blocked interval. -/
theorem C3_witness :
    generateNextCallTime schedA 13920 [] helperC randW =
      { success := true
        nextCallTime := some (getNextDayFirstCall schedA.user 13920 randW.dayJitter)
        error := none, attempts := 1
        constraints := ["daily_limit_reached"] } ∧
    generateNextCallTime schedA 13920 [] helperC randW =
      generateNextCallTime schedA 13920 [bAlpha] helperC randW :=
  ⟨(C3_theorem schedA 13920 [] [bAlpha] helperC randW (by decide) (by decide)
      (by decide)).1,
   (C3_theorem schedA 13920 [] [bAlpha] helperC randW (by decide) (by decide)
      (by decide)).2.1⟩

/-- C4: the claim says a stale `dailyResetDate` makes the scheduling
operation treat `callsToday` as 0 and run normal strategy search, but
`generateNextCallTime` never reads `dailyResetDate`: with reset date 0,
today 1, and `callsToday = dailyCallLimit = 3`, it still takes the
daily-limit short-circuit. -/
theorem C4_counterexample :
    helperC.daily_reset_date ≠ 1 ∧
    schedA.user.daily_call_limit ≤ helperC.calls_today ∧
    (generateNextCallTime schedA 13920 [] helperC randW).constraints =
      ["daily_limit_reached"] ∧
    (generateNextCallTime schedA 13920 [] helperC randW).success = true := by
  decide

/-- C4 (amended): the stale-date reset lives in the data-loading step,
not in the engine: `loadInitialData` writes `callsToday = 0` and today's
date whenever the stored reset date differs, before the state is handed
to the scheduler, while `generateNextCallTime` never consults
`dailyResetDate` and short-circuits whenever the `callsToday` it receives
has reached the limit, stale date or not. -/
theorem C4_amended :
    (∀ today stored, stored.daily_reset_date ≠ today →
      ∃ nr, loadInitialDataReset today stored = (UpdateOutcome.ok nr, nr) ∧
        nr.calls_today = 0 ∧ nr.daily_reset_date = today) ∧
    (∀ (s : CallScheduler) (now : Int) (bl : List BlockedTime)
      (sh : ScheduleHelper) (r : RandomStream),
      s.user.daily_call_limit ≤ sh.calls_today →
      (generateNextCallTime s now bl sh r).constraints =
        ["daily_limit_reached"]) := by
  constructor
  · intro today stored hst
    unfold loadInitialDataReset
    rw [if_pos hst]
    simp only [updateScheduleHelper, if_pos trivial]
    exact ⟨_, rfl, by simp [applyPatch], by simp [applyPatch]⟩
  · intro s now bl sh r hq
    unfold generateNextCallTime
    rw [if_pos hq]

/-- C4 witness: the concrete stale row is reset to zero on load, and the
at-quota engine run is tagged `daily_limit_reached`. -/
theorem C4_witness :
    (∃ nr, loadInitialDataReset 1 helperC = (UpdateOutcome.ok nr, nr) ∧
      nr.calls_today = 0 ∧ nr.daily_reset_date = 1) ∧
    (generateNextCallTime schedA 13920 [bAlpha] helperC randW).constraints =
      ["daily_limit_reached"] :=
  ⟨C4_amended.1 1 helperC (by decide),
   C4_amended.2 schedA 13920 [bAlpha] helperC randW (by decide)⟩

/-- Profile active on Tuesdays only, window 10:00-19:30. -/
def userB : User :=
  { daily_call_limit := 3, active_days := [.tue]
    morning_start := 600, evening_end := 1170 }

/-- Default-option scheduler over `userB`. -/
def schedB : CallScheduler := mkScheduler userB none none none

/-- Fresh schedule state used with `userB`. -/
def helperB : ScheduleHelper :=
  { next_call_due := none, last_call_time := none, calls_today := 0
    daily_reset_date := 0, last_generated := 0, lock_version := 1 }

/-- Draws that send every random-offset candidate 300 minutes ahead and
leave slots unperturbed. -/
def randB : RandomStream :=
  { basic := fun _ => 300, slotMinute := fun _ => 0, slotJitter := fun _ => 0
    relax := fun _ => 300, dayJitter := 0 }

/-- C7: the claim says every candidate rejected during strategy search
has its suggested alternative re-validated and, when valid, returned as
the accepted instant.  In the run at Tuesday 19:00 for the
Tuesday-only profile, the preferred-slot strategy's first candidate
(Wednesday 19:00) is rejected with the valid suggestion
"next Tuesday 10:00", yet the suggestion is never tried and the whole
generation fails: only the basic-randomization strategy re-validates
suggestions. -/
theorem C7_counterexample :
    (getPreferredTimeSlots userB randB.slotMinute).head? =
      some { hour := 19, minute := 0 } ∧
    getNextOccurrenceOfTimeSlot 16080 { hour := 19, minute := 0 }
      (randB.slotJitter 0) = 21840 ∧
    validateCallTime schedB 16080 21840 [] helperB =
      { isValid := false, reason := some "inactive_day"
        suggestedTime := some 54240 } ∧
    validateCallTime schedB 16080 54240 [] helperB =
      { isValid := true, reason := none, suggestedTime := none } ∧
    (generateNextCallTime schedB 16080 [] helperB randB).success = false := by
  decide

/-- C7 (amended): validation applies its checks in the fixed order with
the first failing check's reason (five ordering facts below), and only
the basic-randomization strategy re-validates a rejected candidate's
suggestion — exactly once, returning it when valid — while the
preferred-slot strategy moves on to the next slot regardless of the
suggestion. -/
theorem C7_amended :
    (∀ (s : CallScheduler) (now t : Int) (bl : List BlockedTime)
      (sh : ScheduleHelper),
      (todMin t < s.user.morning_start ∨ s.user.evening_end < todMin t) →
      (validateCallTime s now t bl sh).reason = some "outside_daily_window") ∧
    (∀ (s : CallScheduler) (now t : Int) (bl : List BlockedTime)
      (sh : ScheduleHelper),
      s.user.morning_start ≤ todMin t → todMin t ≤ s.user.evening_end →
      weekday t ∉ s.user.active_days →
      (validateCallTime s now t bl sh).reason = some "inactive_day") ∧
    (∀ (s : CallScheduler) (now t : Int) (bl : List BlockedTime)
      (sh : ScheduleHelper) (l : Int),
      s.user.morning_start ≤ todMin t → todMin t ≤ s.user.evening_end →
      weekday t ∈ s.user.active_days →
      sh.last_call_time = some l → t - l < s.minGap →
      (validateCallTime s now t bl sh).reason = some "min_gap_violation") ∧
    (∀ (s : CallScheduler) (now t : Int) (bl : List BlockedTime)
      (sh : ScheduleHelper) (b : BlockedTime),
      s.user.morning_start ≤ todMin t → todMin t ≤ s.user.evening_end →
      weekday t ∈ s.user.active_days → gapOk s sh t →
      (bl.filter (fun b => b.is_active)).find?
        (fun b => isTimeInBlockedPeriod t b) = some b →
      (validateCallTime s now t bl sh).reason =
        some ("blocked_" ++ normName b.block_name)) ∧
    (∀ (s : CallScheduler) (now t : Int) (bl : List BlockedTime)
      (sh : ScheduleHelper),
      s.user.morning_start ≤ todMin t → todMin t ≤ s.user.evening_end →
      weekday t ∈ s.user.active_days → gapOk s sh t →
      (bl.filter (fun b => b.is_active)).find?
        (fun b => isTimeInBlockedPeriod t b) = none →
      t ≤ now →
      (validateCallTime s now t bl sh).reason = some "past_time") ∧
    (∀ (s : CallScheduler) (now : Int) (bl : List BlockedTime)
      (sh : ScheduleHelper) (rng : Nat → Int) (fuel attempts : Nat)
      (cons : List String) (sug : Int),
      (validateCallTime s now (now + 4 * rng attempts) bl sh).isValid = false →
      (validateCallTime s now (now + 4 * rng attempts) bl sh).suggestedTime =
        some sug →
      (validateCallTime s now sug bl sh).isValid = true →
      basicRandAux s now bl sh rng (fuel + 1) attempts cons =
        { success := true, nextCallTime := some sug, error := none
          attempts := attempts + 1
          constraints := addConstraint cons
            (validateCallTime s now (now + 4 * rng attempts) bl sh).reason }) ∧
    (∀ (s : CallScheduler) (now : Int) (bl : List BlockedTime)
      (sh : ScheduleHelper) (jr : Nat → Int) (slot : TimeSlot)
      (rest : List TimeSlot) (attempts : Nat) (cons : List String),
      (validateCallTime s now (getNextOccurrenceOfTimeSlot now slot
        (jr attempts)) bl sh).isValid = false →
      patternAux s now bl sh jr (slot :: rest) attempts cons =
        patternAux s now bl sh jr rest (attempts + 1)
          (addConstraint cons (validateCallTime s now
            (getNextOccurrenceOfTimeSlot now slot (jr attempts)) bl sh).reason)) := by
  refine ⟨?_, ?_, ?_, ?_, ?_, ?_, ?_⟩
  · intro s now t bl sh hw
    rw [validateCallTime_window_fail s now t bl sh hw]
  · intro s now t bl sh hw1 hw2 hd
    rw [validateCallTime_inactive s now t bl sh hw1 hw2 hd]
  · intro s now t bl sh l hw1 hw2 hd hl hgap
    rw [validateCallTime_gap s now t bl sh l hw1 hw2 hd hl hgap]
  · intro s now t bl sh b hw1 hw2 hd hg hf
    rw [validateCallTime_first_blocked s now t bl sh b hw1 hw2 hd hg hf]
  · intro s now t bl sh hw1 hw2 hd hg hf hp
    rw [validateCallTime_pasttime s now t bl sh hw1 hw2 hd hg hf hp]
  · intro s now bl sh rng fuel attempts cons sug hinv hsug hval
    unfold basicRandAux
    have hnv : ¬ (validateCallTime s now (now + 4 * rng attempts) bl
        sh).isValid = true := by
      simp [hinv]
    rw [if_neg hnv, hsug]
    show (if (validateCallTime s now sug bl sh).isValid = true then _ else _) = _
    rw [if_pos hval]
  · intro s now bl sh jr slot rest attempts cons hinv
    have hnv : ¬ (validateCallTime s now (getNextOccurrenceOfTimeSlot now slot
        (jr attempts)) bl sh).isValid = true := by
      simp [hinv]
    conv_lhs => rw [patternAux]
    rw [if_neg hnv]

/-- C7 amended witness: at Tuesday 09:00 a basic-randomization candidate
45 minutes ahead falls before the window but carries the valid suggestion
"Tuesday 10:00", and the loop returns that suggestion as its success; a
preferred-slot rejection at Tuesday 19:00 just recurses past the slot. -/
theorem C7_witness :
    basicRandAux schedB 13680 [] helperB (fun _ => 45) (0 + 1) 0 [] =
      { success := true, nextCallTime := some 13920, error := none
        attempts := 0 + 1
        constraints := addConstraint []
          (validateCallTime schedB 13680 (13680 + 4 * 45) [] helperB).reason } ∧
    patternAux schedB 16080 [] helperB randB.slotJitter
        [{ hour := 19, minute := 0 }] 0 [] =
      patternAux schedB 16080 [] helperB randB.slotJitter [] (0 + 1)
        (addConstraint [] (validateCallTime schedB 16080
          (getNextOccurrenceOfTimeSlot 16080 { hour := 19, minute := 0 }
            (randB.slotJitter 0)) [] helperB).reason) :=
  ⟨(C7_amended.2.2.2.2.2.1) schedB 13680 [] helperB (fun _ => 45) 0 0 [] 13920
      (by decide) (by decide) (by decide),
   (C7_amended.2.2.2.2.2.2) schedB 16080 [] helperB randB.slotJitter
      { hour := 19, minute := 0 } [] 0 [] (by decide)⟩

/-- Schedule state whose last call is exactly "now" (Tuesday 10:00). -/
def helperD : ScheduleHelper :=
  { next_call_due := none, last_call_time := some 13920, calls_today := 0
    daily_reset_date := 0, last_generated := 0, lock_version := 1 }

/-- C8: the claim says the first relaxation sub-strategy searches with
the minimum gap at 100% of nominal; in the code the first sub-strategy
already relaxes to 75%: a candidate 40 minutes after the last call
(40 < nominal 45) is accepted on the very first relaxation attempt and
tagged `reduced_min_gap`. -/
theorem C8_counterexample :
    schedA.minGap = 4 * 45 ∧
    helperD.last_call_time = some 13920 ∧
    (14080 : Int) - 13920 < 4 * 45 ∧
    findTimeWithConstraintRelaxation schedA 13920 [] helperD (fun _ => 40) =
      { success := true, nextCallTime := some 14080, error := none
        attempts := 1, constraints := ["reduced_min_gap"] } := by
  decide

/-- C8 (amended): the relaxation strategy runs exactly three
sub-strategies in order — minimum gap at 75% of nominal, then 50% of
nominal, then a pass at the nominal gap that drops blocked intervals
with priority ≤ 0 — each drawing on a budget of
`maxAttempts / 3` attempts, and a successful pass appends its relaxation
description as the last entry of the result's constraints metadata. -/
theorem C8_amended :
    (∀ (s : CallScheduler) (now : Int) (bl : List BlockedTime)
      (sh : ScheduleHelper) (rng : Nat → Int),
      findTimeWithConstraintRelaxation s now bl sh rng =
        findTimeWithConstraintRelaxationAux s now bl sh rng (s.maxAttempts / 3)
          [ { minGap := some (s.minGap * 3 / 4), ignoreLowPriorityBlocks := false
              description := "reduced_min_gap" }
          , { minGap := some (s.minGap / 2), ignoreLowPriorityBlocks := false
              description := "minimal_gap" }
          , { minGap := none, ignoreLowPriorityBlocks := true
              description := "ignore_low_priority_blocks" } ] 0 []) ∧
    (∀ (rs : CallScheduler) (now : Int) (bl : List BlockedTime)
      (sh : ScheduleHelper) (rng : Nat → Int) (d : String)
      (fuel tot : Nat) (cons : List String) (res : SchedulingResult),
      relaxPassAux rs now bl sh rng d fuel tot cons = Sum.inl res →
      res.constraints.getLast? = some d) := by
  constructor
  · intro s now bl sh rng
    rfl
  · intro rs now bl sh rng d fuel tot cons res h
    exact (relaxPassAux_inl rs now bl sh rng d fuel tot cons res h).2.2

/-- C8 amended witness: the concrete first-pass success of the
counterexample run ends its constraint list with `reduced_min_gap`. -/
theorem C8_witness :
    ({ success := true, nextCallTime := some 14080, error := none
       attempts := 1
       constraints := ["reduced_min_gap"] } : SchedulingResult).constraints.getLast? =
      some "reduced_min_gap" :=
  C8_amended.2 (mkScheduler userA (some (4 * 45 * 3 / 4)) none none) 13920 []
    helperD (fun _ => 40) "reduced_min_gap" 16 0 []
    { success := true, nextCallTime := some 14080, error := none
      attempts := 1, constraints := ["reduced_min_gap"] }
    (by decide)

/-- Profile with an empty active-day set. -/
def userE : User :=
  { daily_call_limit := 3, active_days := []
    morning_start := 600, evening_end := 1170 }

/-- Default-option scheduler over the empty-active-days profile. -/
def schedE : CallScheduler := mkScheduler userE none none none

/-- C9: the claim says an empty active-day set is signalled as a distinct
configuration error; in the code `getNextActiveDay` scans 7 days, finds
nothing, and silently returns the fallback "input time + 24h", the
rejection is the ordinary `inactive_day` verdict, and the whole
generation terminates with the generic no-slot failure. -/
theorem C9_counterexample :
    userE.active_days = [] ∧
    getNextActiveDay userE 13920 = 13920 + qmPerDay ∧
    validateCallTime schedE 16080 13920 [] helperB =
      { isValid := false, reason := some "inactive_day"
        suggestedTime := some (13920 + qmPerDay) } ∧
    (generateNextCallTime schedE 16080 [] helperB randB).success = false ∧
    (generateNextCallTime schedE 16080 [] helperB randB).error =
      some "Unable to find valid call time within constraints" := by
  decide

/-- C9 (amended): with an empty active-day set the 7-day scan finds no
active day, `getNextActiveDay` silently returns the fallback input time
plus one day, and `generateNextCallTime` (below quota, where the scan is
reachable) terminates with the ordinary strategy-exhaustion failure —
no distinct configuration error and no divergence. -/
theorem C9_amended (u : User) (hu : u.active_days = []) :
    (∀ t, getNextActiveDay u t = t + qmPerDay) ∧
    (∀ (s : CallScheduler) (now : Int) (bl : List BlockedTime)
      (sh : ScheduleHelper) (r : RandomStream), s.user = u →
      sh.calls_today < s.user.daily_call_limit →
      (generateNextCallTime s now bl sh r).success = false ∧
      (generateNextCallTime s now bl sh r).error =
        some "Unable to find valid call time within constraints" ∧
      (generateNextCallTime s now bl sh r).nextCallTime = none) := by
  have hscan : ∀ (n : Nat) (t0 adj : Int),
      getNextActiveDayAux u t0 n adj = t0 + qmPerDay := by
    intro n
    induction n with
    | zero => intro t0 adj; rfl
    | succ m ih =>
      intro t0 adj
      have hnm : ¬ weekday (adj + qmPerDay) ∈ u.active_days := by
        rw [hu]
        exact List.not_mem_nil _
      unfold getNextActiveDayAux
      rw [if_neg (fun hc => hnm (of_decide_eq_true hc))]
      exact ih t0 _
  constructor
  · intro t
    exact hscan 7 t t
  · intro s now bl sh r hsu hq
    have hkey : ∀ t', (s.user.morning_start ≤ todMin t' ∧
        todMin t' ≤ s.user.evening_end ∧
        weekday t' ∈ s.user.active_days) → False := by
      intro t' h
      have := h.2.2
      rw [hsu, hu] at this
      exact absurd this (List.not_mem_nil _)
    have h1 : (findTimeWithBasicRandomization s now bl sh r.basic).success
        = false := by
      cases hb : (findTimeWithBasicRandomization s now bl sh r.basic).success with
      | false => rfl
      | true =>
        obtain ⟨t', ht', hv⟩ := basicRandAux_success s now bl sh r.basic
          s.maxAttempts 0 [] hb
        exact absurd (validateCallTime_valid_window_day _ _ _ _ _ hv) (hkey t')
    have h2 : (findTimeWithPatternOptimization s now bl sh r.slotMinute
        r.slotJitter).success = false := by
      cases hb : (findTimeWithPatternOptimization s now bl sh r.slotMinute
          r.slotJitter).success with
      | false => rfl
      | true =>
        obtain ⟨t', ht', hv⟩ := patternAux_success s now bl sh r.slotJitter
          (getPreferredTimeSlots s.user r.slotMinute) 0 [] hb
        exact absurd (validateCallTime_valid_window_day _ _ _ _ _ hv) (hkey t')
    have h3 : (findTimeWithConstraintRelaxation s now bl sh r.relax).success
        = false := by
      cases hb : (findTimeWithConstraintRelaxation s now bl sh r.relax).success with
      | false => rfl
      | true =>
        obtain ⟨t', ht', hw⟩ := relaxAux_success s now bl sh r.relax
          (s.maxAttempts / (relaxationStrategies s.minGap).length)
          (relaxationStrategies s.minGap) 0 [] hb
        exact absurd hw (hkey t')
    have c1 : ((findTimeWithBasicRandomization s now bl sh r.basic).success &&
        (findTimeWithBasicRandomization s now bl sh
          r.basic).nextCallTime.isSome) = false := by
      rw [h1]
      rfl
    have c2 : ((findTimeWithPatternOptimization s now bl sh r.slotMinute
        r.slotJitter).success &&
        (findTimeWithPatternOptimization s now bl sh r.slotMinute
          r.slotJitter).nextCallTime.isSome) = false := by
      rw [h2]
      rfl
    have c3 : ((findTimeWithConstraintRelaxation s now bl sh r.relax).success &&
        (findTimeWithConstraintRelaxation s now bl sh
          r.relax).nextCallTime.isSome) = false := by
      rw [h3]
      rfl
    have hnq : ¬ s.user.daily_call_limit ≤ sh.calls_today := by omega
    refine ⟨?_, ?_, ?_⟩ <;>
      · unfold generateNextCallTime
        rw [if_neg hnq]
        simp [c1, c2, c3]

/-- C9 amended witness: the concrete empty-active-days profile falls back
to "plus one day" and its generation run fails generically. -/
theorem C9_witness :
    getNextActiveDay userE 13920 = 13920 + qmPerDay ∧
    (generateNextCallTime schedE 16080 [bAlpha] helperB randB).success = false :=
  ⟨(C9_amended userE (by decide)).1 13920,
   ((C9_amended userE (by decide)).2 schedE 16080 [bAlpha] helperB randB rfl
      (by decide)).1⟩

end Scheduler
